import Mathlib

/-!
Shallow embedding of the studio2 chat-room persistence layer.

Source files modelled:
- src/unnamed/part_001 (the storage service: subscribeToRooms, saveRoom,
  deleteRoom, createRoom, addMessage, addMemo, deleteMemo, getLocalRooms,
  importRoom),
- src/unnamed/part_000 (the cloud setup modal's handleSave flow),
- src/App.tsx (handleExportRoom, handleFileChange, handleConfirmDelete,
  handleCreateRoom).

Conventions of the embedding:
- JavaScript values that may be array-shaped, key-indexed-object-shaped, or
  absent (undefined) are modelled by the RawSeq type; a room record as it
  exists in storage (untyped JS data) is a RawRoom.
- Asynchronous operations are modelled big-step: an operation that awaits a
  remote write returns an Except value (error = rejected promise); an
  operation that drops its promise returns a plain value and the rejection
  is unobservable in its result.
- A possible remote failure is modelled by the cloudFails flag of the state:
  when it is set, remote set/remove/runTransaction calls reject.
- A local-mode mutation that would raise a TypeError at runtime (calling
  .push or .filter on a non-array value) is modelled by Option, returning
  none at exactly the inputs where the JavaScript would throw.
-/

namespace Studio2

/-- Role tag of a message author / session. The types.ts file is not part of
the provided sources; the two role values (admin, participant) are taken from
their uses in src (UserRole.ADMIN, UserRole.PARTICIPANT in App.tsx and the
storage service). -/
inductive UserRole where
  | ADMIN
  | PARTICIPANT
deriving DecidableEq, Repr

/-- A chat message, with the fields constructed in createRoom
(src/unnamed/part_001): id, senderName, role, text, timestamp, type. The
source field name `type` is a reserved word in Lean, hence `type'`. -/
structure Message where
  id : String
  senderName : String
  role : UserRole
  text : String
  timestamp : Nat
  type' : String
deriving DecidableEq, Repr

/-- A memo attached to a room. Only the id field is inspected by the sources
under src (deleteMemo filters on m.id); the text field follows the spec's
data model (identifier plus free-form text content). -/
structure Memo where
  id : String
  text : String
deriving DecidableEq, Repr

/-- A JavaScript value that is expected to be a sequence but may actually be
missing (undefined/null), a real array, or a key-indexed object (the shape
the realtime database can deliver for array-like data). -/
inductive RawSeq (α : Type) where
  | missing
  | arr (items : List α)
  | obj (entries : List (String × α))
deriving DecidableEq, Repr

/-- True exactly on real arrays. -/
def RawSeq.isArr {α : Type} : RawSeq α → Bool
  | .arr _ => true
  | _ => false

/-- The coercion used throughout src/unnamed/part_001:
`x ? Object.values(x) : []` and
`Array.isArray(x) ? x : Object.values(x)` (after the `if (!x) x = []` guard)
both amount to this function. Object.values enumerates the stored entries in
order. -/
def objectValues {α : Type} : RawSeq α → List α
  | .missing => []
  | .arr items => items
  | .obj entries => entries.map Prod.snd

/-- A room record as stored (untyped JS data): messages and memos may be in
any of the RawSeq shapes, password may be absent (undefined is dropped by
JSON.stringify and modelled as none). Field list from the object literal in
createRoom (src/unnamed/part_001). -/
structure RawRoom where
  id : String
  title : String
  password : Option String
  messages : RawSeq Message
  memos : RawSeq Memo
  createdAt : Nat
  createdBy : String
deriving DecidableEq, Repr

/-- The remote `rooms` node: one child per room, keyed by the path segment
used in `ref(db, 'rooms/' + id)`. -/
abbrev CloudStore : Type := List (String × RawRoom)

/-- Reading the child at key id (the value runTransaction hands to its
update function, and what a get at `rooms/id` sees). -/
def cloudGet (roomId : String) (store : CloudStore) : Option RawRoom :=
  (store.find? (fun p => p.1 = roomId)).map Prod.snd

/-- Writing value r at path `rooms/id` (firebase `set`): replaces the child
at that key, creating it if absent. -/
def cloudSet (roomId : String) (r : RawRoom) : CloudStore → CloudStore
  | [] => [(roomId, r)]
  | p :: rest => if p.1 = roomId then (roomId, r) :: rest else p :: cloudSet roomId r rest

/-- Removing the child at path `rooms/id` (firebase `remove`); removing an
absent child succeeds and changes nothing. -/
def cloudRemove (roomId : String) (store : CloudStore) : CloudStore :=
  store.filter (fun p => p.1 ≠ roomId)

/-- firebase `runTransaction` at path `rooms/id`: the update function f
receives the current value (null when absent, here none) and the value it
returns is committed atomically; returning null leaves an absent path absent
and deletes a present one. -/
def runTransactionAt (roomId : String) (f : Option RawRoom → Option RawRoom)
    (store : CloudStore) : CloudStore :=
  match f (cloudGet roomId store) with
  | none => cloudRemove roomId store
  | some r => cloudSet roomId r store

/-- The whole persistent state the storage service can reach: the mode flag
set by initFirebase (isCloudEnabled), whether remote operations currently
reject (network/permission failure, not a stored datum but an environment
condition the failure-policy claims quantify over), the parsed content of
the local `ai_automation_rooms` entry, and the remote rooms node. -/
structure StoreState where
  cloudEnabled : Bool
  cloudFails : Bool
  localRooms : List RawRoom
  cloud : CloudStore
deriving DecidableEq, Repr

/-- Local-mode upsert from saveRoom (src/unnamed/part_001): findIndex by id,
replace the first match in place, otherwise push at the end. -/
def upsertLocal (room : RawRoom) : List RawRoom → List RawRoom
  | [] => [room]
  | r :: rest => if r.id = room.id then room :: rest else r :: upsertLocal room rest

/-- saveRoom (src/unnamed/part_001). Cloud mode: `await set(ref(db,
'rooms/' + room.id), sanitizedRoom)`, rethrowing a rejection to the caller
(the sanitization JSON.parse(JSON.stringify(room)) only drops undefined
fields, which the RawRoom representation already encodes as
none/RawSeq.missing). Local mode: upsert into the stored list; cannot
reject. -/
def saveRoom (s : StoreState) (room : RawRoom) : Except String StoreState :=
  if s.cloudEnabled then
    if s.cloudFails then .error "Error saving room to cloud"
    else .ok { s with cloud := cloudSet room.id room s.cloud }
  else .ok { s with localRooms := upsertLocal room s.localRooms }

/-- deleteRoom (src/unnamed/part_001). Cloud mode: `await remove(...)`,
rethrowing a rejection. Local mode: keep the rooms whose id differs
(String(r.id) !== String(roomId); ids are strings, so plain inequality). -/
def deleteRoom (s : StoreState) (roomId : String) : Except String StoreState :=
  if s.cloudEnabled then
    if s.cloudFails then .error "Error deleting room from cloud"
    else .ok { s with cloud := cloudRemove roomId s.cloud }
  else .ok { s with localRooms := s.localRooms.filter (fun r => r.id ≠ roomId) }

/-- The creation-date banner text from createRoom: year, monthIndex (the
0-based value of Date.getMonth, printed +1) and day, in the Korean long
form of the source. -/
def dateText (year monthIndex day : Nat) : String :=
  toString year ++ "년 " ++ toString (monthIndex + 1) ++ "월 " ++ toString day ++ "일"

/-- Identifier generation in createRoom: crypto.randomUUID() when available,
otherwise the `room_` ++ Date.now() ++ `_` ++ random-base36 fallback. The
environment inputs (availability flag, the random strings, the clock) are
explicit parameters. -/
def generateUniqueId (hasCrypto : Bool) (cryptoUUID : String) (nowMs : Nat)
    (randBase36 : String) : String :=
  if hasCrypto then cryptoUUID else "room_" ++ toString nowMs ++ "_" ++ randBase36

/-- The single system message createRoom seeds a new room with. -/
def systemCreationMessage (msgRand : String) (nowMs year monthIndex day : Nat) : Message :=
  { id := msgRand
    senderName := "System"
    role := .ADMIN
    text := dateText year monthIndex day
    timestamp := nowMs
    type' := "system" }

/-- The newRoom object literal of createRoom (src/unnamed/part_001): unique
id, the single system message, empty memos, createdAt = Date.now(),
createdBy = 'AI Bot'. -/
def newRoomRecord (hasCrypto : Bool) (cryptoUUID randBase36 msgRand : String)
    (nowMs year monthIndex day : Nat) (title : String) (password : Option String) : RawRoom :=
  { id := generateUniqueId hasCrypto cryptoUUID nowMs randBase36
    title := title
    password := password
    messages := .arr [systemCreationMessage msgRand nowMs year monthIndex day]
    memos := .arr []
    createdAt := nowMs
    createdBy := "AI Bot" }

/-- createRoom (src/unnamed/part_001): build the record, `await saveRoom`,
and return the record paired with the post-write state; a rejected write
propagates and no record is returned. -/
def createRoom (s : StoreState) (hasCrypto : Bool) (cryptoUUID randBase36 msgRand : String)
    (nowMs year monthIndex day : Nat) (title : String) (password : Option String) :
    Except String (RawRoom × StoreState) :=
  let newRoom := newRoomRecord hasCrypto cryptoUUID randBase36 msgRand nowMs year monthIndex day
    title password
  (saveRoom s newRoom).map (fun s2 => (newRoom, s2))

/-- The transaction body of addMessage (cloud branch): null stays null; on a
present room, default missing messages to [], coerce a key-indexed shape
with Object.values, and push the message. -/
def addMessageTx (message : Message) : Option RawRoom → Option RawRoom
  | none => none
  | some room => some { room with messages := .arr (objectValues room.messages ++ [message]) }

/-- The transaction body of addMemo (cloud branch), same shape discipline as
addMessageTx. -/
def addMemoTx (memo : Memo) : Option RawRoom → Option RawRoom
  | none => none
  | some room => some { room with memos := .arr (objectValues room.memos ++ [memo]) }

/-- The transaction body of deleteMemo (cloud branch): null stays null; a
room without memos is returned unchanged; otherwise coerce and filter out
the memo with the given id. -/
def deleteMemoTx (memoId : String) : Option RawRoom → Option RawRoom
  | none => none
  | some room =>
    match room.memos with
    | .missing => some room
    | ms => some { room with memos := .arr ((objectValues ms).filter (fun m => m.id ≠ memoId)) }

/-- JavaScript `xs.push(x)` on a value expected to be an array: succeeds only
on a real array (the local branches of addMessage/addMemo do not guard or
coerce); on missing or key-indexed data the runtime would throw, modelled as
none. -/
def pushRawSeq {α : Type} (x : α) : RawSeq α → Option (RawSeq α)
  | .arr items => some (.arr (items ++ [x]))
  | _ => none

/-- JavaScript `ms.filter(m => m.id !== memoId)` on a value expected to be an
array (local branch of deleteMemo): throws unless it is a real array. -/
def filterRawSeqMemos (memoId : String) : RawSeq Memo → Option (RawSeq Memo)
  | .arr items => some (.arr (items.filter (fun m => m.id ≠ memoId)))
  | _ => none

/-- addMessage (src/unnamed/part_001). Cloud branch: fire runTransaction at
`rooms/roomId` without awaiting it, so the caller observes no error even
when the transaction rejects (cloudFails) — the state is simply left
unchanged. Local branch: find the room by id (no match: silently do
nothing), push onto its messages array and upsert via saveRoom; none models
the TypeError of pushing onto a non-array. -/
def addMessage (s : StoreState) (roomId : String) (message : Message) : Option StoreState :=
  if s.cloudEnabled then
    if s.cloudFails then some s
    else some { s with cloud := runTransactionAt roomId (addMessageTx message) s.cloud }
  else
    match s.localRooms.find? (fun r => r.id = roomId) with
    | none => some s
    | some room =>
      (pushRawSeq message room.messages).map (fun ms =>
        { s with localRooms := upsertLocal { room with messages := ms } s.localRooms })

/-- addMemo (src/unnamed/part_001), same structure as addMessage. -/
def addMemo (s : StoreState) (roomId : String) (memo : Memo) : Option StoreState :=
  if s.cloudEnabled then
    if s.cloudFails then some s
    else some { s with cloud := runTransactionAt roomId (addMemoTx memo) s.cloud }
  else
    match s.localRooms.find? (fun r => r.id = roomId) with
    | none => some s
    | some room =>
      (pushRawSeq memo room.memos).map (fun ms =>
        { s with localRooms := upsertLocal { room with memos := ms } s.localRooms })

/-- deleteMemo (src/unnamed/part_001), same structure as addMessage with the
filter transaction. -/
def deleteMemo (s : StoreState) (roomId : String) (memoId : String) : Option StoreState :=
  if s.cloudEnabled then
    if s.cloudFails then some s
    else some { s with cloud := runTransactionAt roomId (deleteMemoTx memoId) s.cloud }
  else
    match s.localRooms.find? (fun r => r.id = roomId) with
    | none => some s
    | some room =>
      (filterRawSeqMemos memoId room.memos).map (fun ms =>
        { s with localRooms := upsertLocal { room with memos := ms } s.localRooms })

/-- importRoom (src/unnamed/part_001): reject null input or a falsy id or
title (returning false with the store untouched); otherwise call saveRoom
WITHOUT awaiting it and return true. The try/catch around the body only
catches synchronous throws, so a rejected cloud write is not observable in
the returned flag: the result is (true, unchanged state) in that case. -/
def importRoom (s : StoreState) (roomData : Option RawRoom) : Bool × StoreState :=
  match roomData with
  | none => (false, s)
  | some room =>
    if room.id = "" || room.title = "" then (false, s)
    else
      match saveRoom s room with
      | .ok s2 => (true, s2)
      | .error _ => (true, s)

/-- The sanitization subscribeToRooms applies to each cloud record before
invoking the callback: messages and memos are forced back into real arrays
via Object.values. -/
def sanitizeRoom (r : RawRoom) : RawRoom :=
  { r with
    messages := .arr (objectValues r.messages)
    memos := .arr (objectValues r.memos) }

/-- The room collection a single subscription notification delivers
(subscribeToRooms, src/unnamed/part_001). Cloud mode: snapshot.val() of the
rooms node is null when the node is empty (callback([])), otherwise
Object.values of the children, each sanitized. Local mode: loadLocal parses
the stored list and hands it to the callback verbatim — no reshaping. -/
def subscribeSnapshot (s : StoreState) : List RawRoom :=
  if s.cloudEnabled then
    match s.cloud with
    | [] => []
    | entries => entries.map (fun p => sanitizeRoom p.2)
  else s.localRooms

/-- The ids of the rooms present in the backend that is currently active. -/
def storedRoomIds (s : StoreState) : List String :=
  if s.cloudEnabled then s.cloud.map Prod.fst else s.localRooms.map RawRoom.id

/-- The record stored under a given id in the active backend (cloud child
lookup, or first local list entry with that id). -/
def storedRoom (s : StoreState) (roomId : String) : Option RawRoom :=
  if s.cloudEnabled then cloudGet roomId s.cloud
  else s.localRooms.find? (fun r => r.id = roomId)

/-! ### The JSON layer

handleExportRoom (src/App.tsx) serializes one room with JSON.stringify and
handleFileChange parses the chosen file with JSON.parse before handing the
resulting untyped object to importRoom. The tree below is the parsed form of
such a file; encodeRoom is the stringify side (field list and undefined
omission as in the sources), decodeRoom is the structural reading of the
parsed object's fields. -/

/-- A parsed JSON value. -/
inductive Json where
  | null
  | bool (b : Bool)
  | num (n : Int)
  | str (s : String)
  | arr (items : List Json)
  | obj (fields : List (String × Json))

/-- True exactly on JSON arrays. -/
def Json.isArr : Json → Bool
  | .arr _ => true
  | _ => false

/-- Property access obj.name on a parsed value: some field value when
present, none (undefined) otherwise. -/
def jsonField (name : String) : Json → Option Json
  | .obj fields => (fields.find? (fun p => p.1 = name)).map Prod.snd
  | _ => none

/-- Reading a field expected to hold a string. -/
def asStr : Option Json → Option String
  | some (.str s) => some s
  | _ => none

/-- Reading a field expected to hold a non-negative number. -/
def asNat : Option Json → Option Nat
  | some (.num (Int.ofNat n)) => some n
  | _ => none

/-- Reading an optional string field: an absent field is a legitimate none
(undefined survives a stringify/parse round trip as an absent key). -/
def asOptStr : Option Json → Option (Option String)
  | none => some none
  | some (.str s) => some (some s)
  | _ => none

/-- JSON.stringify of a role value. The enum literals are not in the
provided sources (types.ts is absent); any two distinct strings give the
same round-trip behaviour, these follow the spec's role names. -/
def encodeRole : UserRole → Json
  | .ADMIN => .str "admin"
  | .PARTICIPANT => .str "participant"

/-- Reading a role string back. -/
def decodeRole : Option Json → Option UserRole
  | some (.str s) =>
    if s = "admin" then some .ADMIN
    else if s = "participant" then some .PARTICIPANT
    else none
  | _ => none

/-- JSON.stringify of a message. -/
def encodeMessage (m : Message) : Json :=
  .obj [("id", .str m.id), ("senderName", .str m.senderName), ("role", encodeRole m.role),
    ("text", .str m.text), ("timestamp", .num (Int.ofNat m.timestamp)), ("type", .str m.type')]

/-- Reading a message object back. -/
def decodeMessage (j : Json) : Option Message := do
  let id ← asStr (jsonField "id" j)
  let senderName ← asStr (jsonField "senderName" j)
  let role ← decodeRole (jsonField "role" j)
  let text ← asStr (jsonField "text" j)
  let timestamp ← asNat (jsonField "timestamp" j)
  let type' ← asStr (jsonField "type" j)
  some ⟨id, senderName, role, text, timestamp, type'⟩

/-- JSON.stringify of a memo. -/
def encodeMemo (m : Memo) : Json :=
  .obj [("id", .str m.id), ("text", .str m.text)]

/-- Reading a memo object back. -/
def decodeMemo (j : Json) : Option Memo := do
  let id ← asStr (jsonField "id" j)
  let text ← asStr (jsonField "text" j)
  some ⟨id, text⟩

/-- Decoding every element of a JSON array. -/
def decodeList {α : Type} (dec : Json → Option α) : List Json → Option (List α)
  | [] => some []
  | j :: js =>
    match dec j, decodeList dec js with
    | some a, some as => some (a :: as)
    | _, _ => none

/-- Decoding every entry of a key-indexed JSON object. -/
def decodeEntries {α : Type} (dec : Json → Option α) :
    List (String × Json) → Option (List (String × α))
  | [] => some []
  | p :: ps =>
    match dec p.2, decodeEntries dec ps with
    | some a, some as => some ((p.1, a) :: as)
    | _, _ => none

/-- JSON.stringify of a RawSeq-valued field: an undefined field is omitted
(none), an array or key-indexed object keeps its shape with each element
encoded. -/
def encodeSeqWith {α : Type} (enc : α → Json) : RawSeq α → Option Json
  | .missing => none
  | .arr items => some (.arr (items.map enc))
  | .obj entries => some (.obj (entries.map (fun p => (p.1, enc p.2))))

/-- Reading a RawSeq-valued field back: absent stays missing, arrays and
key-indexed objects keep their shape. -/
def decodeSeqWith {α : Type} (dec : Json → Option α) : Option Json → Option (RawSeq α)
  | none => some .missing
  | some (.arr items) => (decodeList dec items).map .arr
  | some (.obj fields) => (decodeEntries dec fields).map .obj
  | some _ => none

/-- A present optional field contributes one key, an absent one contributes
nothing (JSON.stringify omits undefined values). -/
def optField (name : String) : Option Json → List (String × Json)
  | none => []
  | some j => [(name, j)]

/-- JSON.stringify of a whole room record, as written by handleExportRoom
(src/App.tsx): the exported file holds exactly this object. -/
def encodeRoom (r : RawRoom) : Json :=
  .obj ([("id", .str r.id), ("title", .str r.title)]
    ++ optField "password" (r.password.map .str)
    ++ optField "messages" (encodeSeqWith encodeMessage r.messages)
    ++ optField "memos" (encodeSeqWith encodeMemo r.memos)
    ++ [("createdAt", .num (Int.ofNat r.createdAt)), ("createdBy", .str r.createdBy)])

/-- Reading a parsed room file back into the untyped record importRoom
receives (handleFileChange passes the JSON.parse result straight through). -/
def decodeRoom (j : Json) : Option RawRoom := do
  let id ← asStr (jsonField "id" j)
  let title ← asStr (jsonField "title" j)
  let password ← asOptStr (jsonField "password" j)
  let messages ← decodeSeqWith decodeMessage (jsonField "messages" j)
  let memos ← decodeSeqWith decodeMemo (jsonField "memos" j)
  let createdAt ← asNat (jsonField "createdAt" j)
  let createdBy ← asStr (jsonField "createdBy" j)
  some ⟨id, title, password, messages, memos, createdAt, createdBy⟩

/-! ### The raw text layer of local storage (getLocalRooms) -/

/-- The states the `ai_automation_rooms` localStorage entry can be in, as
far as getLocalRooms distinguishes them: no entry at all
(localStorage.getItem returns null), an entry whose text JSON.parse rejects
(the parse throws and the catch branch runs), or an entry holding
well-formed JSON (the parse returns its value tree). -/
inductive StoredText where
  | absent
  | malformed
  | wellFormed (value : Json)

/-- getLocalRooms (src/unnamed/part_001): `stored ? JSON.parse(stored) : []`
inside try/catch, returning [] when the entry is absent and [] when the
parse throws; well-formed JSON is returned as parsed (the ChatRoom[] type
ascription is not checked at runtime). -/
def getLocalRooms : StoredText → Json
  | .absent => .arr []
  | .malformed => .arr []
  | .wellFormed j => j

/-- The serialized form of a well-formed room list, as saveRoom writes it
(JSON.stringify of the rooms array). -/
def encodeRooms (rooms : List RawRoom) : Json :=
  .arr (rooms.map encodeRoom)

/-! ### The credential setup flow (handleSave, src/unnamed/part_000) -/

/-- The firebase configuration record (FirebaseConfig interface,
src/unnamed/part_001): databaseURL, storageBucket and messagingSenderId are
optional. A field the pasted text did not supply at all is modelled as ""
(required fields) or none (optional fields); both are falsy exactly like the
missing property. -/
structure FirebaseConfig where
  apiKey : String
  authDomain : String
  databaseURL : Option String
  projectId : String
  storageBucket : Option String
  messagingSenderId : Option String
  appId : String
deriving DecidableEq, Repr

/-- Truthiness test of an optional string field: undefined and the empty
string are falsy. -/
def strOptFalsy : Option String → Bool
  | none => true
  | some s => s == ""

/-- The outcome of the two parsing attempts of handleSave: both the
object-literal evaluation and the strict JSON.parse failed; they produced a
value that is not an object; or an object with the given fields. -/
inductive ParsedConfig where
  | unparsable
  | notAnObject
  | object (config : FirebaseConfig)
deriving DecidableEq, Repr

/-- What a run of handleSave ends in: an inline error shown via setError
(no credentials are persisted on this path), or onSave/onClose with the
accepted config (App.handleSaveFirebase then persists it via
saveFirebaseConfig). -/
inductive SetupOutcome where
  | errorShown (msg : String)
  | savedConfig (config : FirebaseConfig)
deriving DecidableEq, Repr

/-- The databaseURL candidate handleSave derives from the project id. -/
def inferredUrl (projectId : String) : String :=
  "https://" ++ projectId ++ "-default-rtdb.firebaseio.com"

/-- handleSave (src/unnamed/part_000), with its environment interactions as
parameters: the parse outcome of the pasted text, the user's answer to the
window.confirm asking to add the derived databaseURL, and whether the
connectivity probe (testFirebaseConnection) succeeds. Every throw inside
the body lands in the outer catch, which calls setError, so each failure
path yields an errorShown outcome. -/
def handleSave (parsed : ParsedConfig) (confirmAddUrl : Bool) (connectionOk : Bool) :
    SetupOutcome :=
  match parsed with
  | .unparsable =>
    .errorShown "설정 형식을 인식할 수 없습니다. (Javascript Object 또는 JSON 형식이 아닙니다)"
  | .notAnObject => .errorShown "유효한 설정 객체가 아닙니다."
  | .object config =>
    let missingFields :=
      (if config.apiKey = "" then ["apiKey"] else [])
        ++ (if config.projectId = "" then ["projectId"] else [])
    if missingFields.isEmpty then
      if strOptFalsy config.databaseURL then
        if confirmAddUrl then
          let config2 := { config with databaseURL := some (inferredUrl config.projectId) }
          if connectionOk then .savedConfig config2 else .errorShown "연결 실패"
        else
          .errorShown "'databaseURL'이 없습니다. Firebase Console의 Realtime Database 섹션에서 URL을 확인하고 추가해주세요."
      else
        if connectionOk then .savedConfig config else .errorShown "연결 실패"
    else .errorShown ("필수 값이 누락되었습니다: " ++ String.intercalate ", " missingFields)

/-- Credentials reach localStorage (saveFirebaseConfig) only on the
savedConfig outcome; every setError path returns without persisting. -/
def persistsCredentials : SetupOutcome → Bool
  | .savedConfig _ => true
  | .errorShown _ => false

/-! ### Await discipline of the asynchronous storage call sites

The failure-policy claims quantify over which asynchronous storage
operations are awaited by their callers. That is a syntactic property of
each call site, transcribed here one entry per call: caller, callee,
whether the callee's promise can reject, and whether the caller awaits it. -/

/-- One asynchronous call site in the sources. -/
structure AsyncCallSite where
  caller : String
  callee : String
  canFail : Bool
  awaited : Bool
deriving DecidableEq, Repr

/-- Every call site of an asynchronous room-storage operation in the
provided sources (src/unnamed/part_001 and src/App.tsx). `await` appears in
the source exactly where awaited is true: createRoom awaits saveRoom,
saveRoom awaits set, deleteRoom awaits remove, and App's create handler
awaits createRoom; importRoom and the local branches of
addMessage/addMemo/deleteMemo call saveRoom without await, the cloud
branches fire runTransaction without await, and App's confirm-delete
handler calls deleteRoom without await. -/
def asyncStorageCallSites : List AsyncCallSite :=
  [⟨"createRoom", "saveRoom", true, true⟩,
   ⟨"saveRoom.cloud", "set", true, true⟩,
   ⟨"deleteRoom.cloud", "remove", true, true⟩,
   ⟨"importRoom", "saveRoom", true, false⟩,
   ⟨"addMessage.cloud", "runTransaction", true, false⟩,
   ⟨"addMessage.local", "saveRoom", true, false⟩,
   ⟨"addMemo.cloud", "runTransaction", true, false⟩,
   ⟨"addMemo.local", "saveRoom", true, false⟩,
   ⟨"deleteMemo.cloud", "runTransaction", true, false⟩,
   ⟨"deleteMemo.local", "saveRoom", true, false⟩,
   ⟨"App.handleCreateRoom", "createRoom", true, true⟩,
   ⟨"App.handleConfirmDelete", "deleteRoom", true, false⟩]

/-! ### Helper lemmas -/

theorem cloudGet_cloudSet_self (roomId : String) (r : RawRoom) (store : CloudStore) :
    cloudGet roomId (cloudSet roomId r store) = some r := by
  induction store with
  | nil => simp [cloudGet, cloudSet]
  | cons p rest ih =>
    by_cases h : p.1 = roomId
    · simp [cloudGet, cloudSet, h]
    · simp only [cloudSet, if_neg h]
      simpa [cloudGet, List.find?_cons, h] using ih

theorem cloudGet_eq_none_of_not_mem (roomId : String) (store : CloudStore)
    (h : roomId ∉ store.map Prod.fst) : cloudGet roomId store = none := by
  unfold cloudGet
  rw [List.find?_eq_none.mpr]
  · rfl
  · intro p hp hpid
    exact h (List.mem_map.mpr ⟨p, hp, by simpa using hpid⟩)

theorem cloudRemove_of_not_mem (roomId : String) (store : CloudStore)
    (h : roomId ∉ store.map Prod.fst) : cloudRemove roomId store = store := by
  unfold cloudRemove
  apply List.filter_eq_self.mpr
  intro p hp
  have : p.1 ≠ roomId := fun he => h (List.mem_map.mpr ⟨p, hp, he⟩)
  simpa using this

theorem cloudRemove_of_not_mem' (roomId : String) (store : CloudStore)
    (h : roomId ∉ store.map Prod.fst) :
    store.filter (fun p => !decide (p.1 = roomId)) = store := by
  have := cloudRemove_of_not_mem roomId store h
  simpa [cloudRemove] using this

theorem cloudRemove_idem (roomId : String) (store : CloudStore) :
    cloudRemove roomId (cloudRemove roomId store) = cloudRemove roomId store := by
  unfold cloudRemove
  apply List.filter_eq_self.mpr
  intro p hp
  exact (List.mem_filter.mp hp).2

theorem cloudRemove_idem' (roomId : String) (store : CloudStore) :
    (store.filter (fun p => !decide (p.1 = roomId))).filter (fun p => !decide (p.1 = roomId))
      = store.filter (fun p => !decide (p.1 = roomId)) := by
  have h := cloudRemove_idem roomId store
  simp only [cloudRemove, ne_eq, decide_not] at h
  exact h

theorem find?_upsertLocal_self (room : RawRoom) (rooms : List RawRoom) :
    (upsertLocal room rooms).find? (fun r => r.id = room.id) = some room := by
  induction rooms with
  | nil => simp [upsertLocal]
  | cons r rest ih =>
    by_cases h : r.id = room.id
    · simp [upsertLocal, h]
    · simp only [upsertLocal, if_neg h]
      simpa [List.find?_cons, h] using ih

theorem localFilter_of_not_mem (roomId : String) (rooms : List RawRoom)
    (h : roomId ∉ rooms.map RawRoom.id) :
    rooms.filter (fun r => !decide (r.id = roomId)) = rooms := by
  apply List.filter_eq_self.mpr
  intro r hr
  have : r.id ≠ roomId := fun he => h (List.mem_map.mpr ⟨r, hr, he⟩)
  simpa using this

theorem localFilter_idem (roomId : String) (rooms : List RawRoom) :
    (rooms.filter (fun r => !decide (r.id = roomId))).filter (fun r => !decide (r.id = roomId))
      = rooms.filter (fun r => !decide (r.id = roomId)) := by
  apply List.filter_eq_self.mpr
  intro r hr
  exact (List.mem_filter.mp hr).2

theorem find?_eq_none_of_not_mem (roomId : String) (rooms : List RawRoom)
    (h : roomId ∉ rooms.map RawRoom.id) :
    rooms.find? (fun r => r.id = roomId) = none := by
  rw [List.find?_eq_none]
  intro r hr hrid
  exact h (List.mem_map.mpr ⟨r, hr, by simpa using hrid⟩)

theorem saveRoom_ok (s : StoreState) (room : RawRoom)
    (hok : s.cloudEnabled = false ∨ s.cloudFails = false) :
    ∃ s2, saveRoom s room = .ok s2 ∧ storedRoom s2 room.id = some room := by
  obtain ⟨cE, cF, lr, cl⟩ := s
  cases cE with
  | false => exact ⟨_, rfl, by simp [storedRoom, find?_upsertLocal_self]⟩
  | true =>
    have hcF : cF = false := by simpa using hok
    subst hcF
    exact ⟨_, rfl, by simp [storedRoom, cloudGet_cloudSet_self]⟩

/-! ### Claim theorems -/

/-- C1: for every valid title and optional password (and every environment:
crypto availability, random strings, clock), createRoom returns a record
whose identifier is the generated one (strong UUID when available, else the
timestamp+random fallback) and hence — under the freshness of that random
identifier — unique among all previously stored rooms; whose message
sequence is exactly the one system-authored entry announcing the creation
date; and the record is returned only after the write completed, the
returned state already containing the record (a failed write returns no
record, as createRoom awaits saveRoom). -/
theorem createRoom_spec (s : StoreState) (hasCrypto : Bool)
    (cryptoUUID randBase36 msgRand : String) (nowMs year monthIndex day : Nat)
    (title : String) (password : Option String)
    (hfresh : generateUniqueId hasCrypto cryptoUUID nowMs randBase36 ∉ storedRoomIds s)
    (hok : s.cloudEnabled = false ∨ s.cloudFails = false) :
    ∃ s2,
      createRoom s hasCrypto cryptoUUID randBase36 msgRand nowMs year monthIndex day title
          password
        = .ok (newRoomRecord hasCrypto cryptoUUID randBase36 msgRand nowMs year monthIndex day
            title password, s2)
      ∧ (newRoomRecord hasCrypto cryptoUUID randBase36 msgRand nowMs year monthIndex day title
          password).id = generateUniqueId hasCrypto cryptoUUID nowMs randBase36
      ∧ (newRoomRecord hasCrypto cryptoUUID randBase36 msgRand nowMs year monthIndex day title
          password).id ∉ storedRoomIds s
      ∧ (newRoomRecord hasCrypto cryptoUUID randBase36 msgRand nowMs year monthIndex day title
          password).messages
          = .arr [systemCreationMessage msgRand nowMs year monthIndex day]
      ∧ ((objectValues (newRoomRecord hasCrypto cryptoUUID randBase36 msgRand nowMs year
          monthIndex day title password).messages).filter
            (fun m => m.type' = "system")).length = 1
      ∧ (∀ m ∈ objectValues (newRoomRecord hasCrypto cryptoUUID randBase36 msgRand nowMs year
          monthIndex day title password).messages,
          m.senderName = "System" ∧ m.text = dateText year monthIndex day ∧ m.type' = "system")
      ∧ storedRoom s2 (generateUniqueId hasCrypto cryptoUUID nowMs randBase36)
          = some (newRoomRecord hasCrypto cryptoUUID randBase36 msgRand nowMs year monthIndex
              day title password) := by
  obtain ⟨s2, hsave, hstored⟩ := saveRoom_ok s
    (newRoomRecord hasCrypto cryptoUUID randBase36 msgRand nowMs year monthIndex day title
      password) hok
  refine ⟨s2, ?_, rfl, hfresh, rfl, ?_, ?_, ?_⟩
  · simp only [createRoom]
    rw [hsave]
    rfl
  · simp [newRoomRecord, objectValues, systemCreationMessage]
  · intro m hm
    simp [newRoomRecord, objectValues, systemCreationMessage] at hm
    subst hm
    simp [systemCreationMessage]
  · exact hstored

/-- C3: in cloud mode, appendMessage is an atomic read-modify-write
transaction on the room record, so two concurrent appends — which the
backend serializes in one of the two orders — both survive: under either
serialization the final message sequence is the old one extended with both
messages, so neither update is lost. -/
theorem addMessage_cloud_appends (s : StoreState) (roomId : String) (room : RawRoom)
    (message : Message) (hc : s.cloudEnabled = true) (hf : s.cloudFails = false)
    (hroom : cloudGet roomId s.cloud = some room) :
    ∃ s1, addMessage s roomId message = some s1
      ∧ s1.cloudEnabled = true ∧ s1.cloudFails = false
      ∧ cloudGet roomId s1.cloud
          = some { room with messages := .arr (objectValues room.messages ++ [message]) } := by
  obtain ⟨cE, cF, lr, cl⟩ := s
  have hc' : cE = true := by simpa using hc
  have hf' : cF = false := by simpa using hf
  subst hc'
  subst hf'
  refine ⟨⟨true, false, lr, runTransactionAt roomId (addMessageTx message) cl⟩, rfl, rfl, rfl, ?_⟩
  have hroom' : cloudGet roomId cl = some room := by simpa using hroom
  simp [runTransactionAt, hroom', addMessageTx, cloudGet_cloudSet_self]

theorem addMessage_two (s : StoreState) (roomId : String) (room : RawRoom) (a b : Message)
    (hc : s.cloudEnabled = true) (hf : s.cloudFails = false)
    (hroom : cloudGet roomId s.cloud = some room) :
    ∃ s1 s2 r2, addMessage s roomId a = some s1 ∧ addMessage s1 roomId b = some s2
      ∧ cloudGet roomId s2.cloud = some r2
      ∧ r2.messages = .arr (objectValues room.messages ++ [a, b])
      ∧ a ∈ objectValues r2.messages ∧ b ∈ objectValues r2.messages := by
  obtain ⟨s1, h1, hc1, hf1, hget1⟩ := addMessage_cloud_appends s roomId room a hc hf hroom
  obtain ⟨s2, h2, hc2, hf2, hget2⟩ := addMessage_cloud_appends s1 roomId _ b hc1 hf1 hget1
  refine ⟨s1, s2, _, h1, h2, hget2, ?_, ?_, ?_⟩ <;> simp [objectValues]

/-- C3, stated over both serialization orders of the two transactions. -/
theorem addMessage_no_lost_update (s : StoreState) (roomId : String) (room : RawRoom)
    (m1 m2 : Message) (hc : s.cloudEnabled = true) (hf : s.cloudFails = false)
    (hroom : cloudGet roomId s.cloud = some room) :
    (∃ s1 s2 r2, addMessage s roomId m1 = some s1 ∧ addMessage s1 roomId m2 = some s2
      ∧ cloudGet roomId s2.cloud = some r2
      ∧ r2.messages = .arr (objectValues room.messages ++ [m1, m2])
      ∧ m1 ∈ objectValues r2.messages ∧ m2 ∈ objectValues r2.messages)
    ∧ (∃ s1 s2 r2, addMessage s roomId m2 = some s1 ∧ addMessage s1 roomId m1 = some s2
      ∧ cloudGet roomId s2.cloud = some r2
      ∧ r2.messages = .arr (objectValues room.messages ++ [m2, m1])
      ∧ m1 ∈ objectValues r2.messages ∧ m2 ∈ objectValues r2.messages) := by
  constructor
  · exact addMessage_two s roomId room m1 m2 hc hf hroom
  · obtain ⟨s1, s2, r2, h1, h2, hget, hmsg, hb, ha⟩ :=
      addMessage_two s roomId room m2 m1 hc hf hroom
    exact ⟨s1, s2, r2, h1, h2, hget, hmsg, ha, hb⟩

/-- C5: deleteRoom is idempotent — the first call succeeds and a second call
on the resulting state succeeds and changes nothing — and deleting an
identifier that is not present in the active backend returns the state
unchanged without an error (local filter removes nothing; remote remove of
an absent child succeeds). The cloudFails = false hypothesis restricts the
statement to an environment in which the remote backend accepts the
operation at all. -/
theorem deleteRoom_idempotent (s : StoreState) (roomId : String)
    (hf : s.cloudFails = false) :
    (∃ s1, deleteRoom s roomId = .ok s1 ∧ deleteRoom s1 roomId = .ok s1)
    ∧ (roomId ∉ storedRoomIds s → deleteRoom s roomId = .ok s) := by
  obtain ⟨cE, cF, lr, cl⟩ := s
  have hf' : cF = false := by simpa using hf
  subst hf'
  constructor
  · cases cE with
    | true =>
      exact ⟨_, rfl, by simp [deleteRoom, cloudRemove, cloudRemove_idem']⟩
    | false =>
      exact ⟨_, rfl, by simp [deleteRoom, localFilter_idem]⟩
  · intro habs
    cases cE with
    | true =>
      have h2 := cloudRemove_of_not_mem' roomId cl (by simpa [storedRoomIds] using habs)
      simp [deleteRoom, cloudRemove, h2]
    | false =>
      have h2 := localFilter_of_not_mem roomId lr (by simpa [storedRoomIds] using habs)
      simp [deleteRoom, h2]

/-- C10: addMessage, addMemo and deleteMemo with a room identifier that is
not present in the active backend leave the state unchanged and signal no
error. Local mode: find matches nothing, so nothing is written. Cloud mode:
the transaction receives null, returns it, and commits no change (and the
operations surface no error regardless, since their promises are dropped). -/
theorem mutators_nonexistent_noop (s : StoreState) (roomId : String)
    (message : Message) (memo : Memo) (memoId : String)
    (habs : roomId ∉ storedRoomIds s) :
    addMessage s roomId message = some s
    ∧ addMemo s roomId memo = some s
    ∧ deleteMemo s roomId memoId = some s := by
  obtain ⟨cE, cF, lr, cl⟩ := s
  cases cE with
  | true =>
    have hget : cloudGet roomId cl = none :=
      cloudGet_eq_none_of_not_mem roomId cl (by simpa [storedRoomIds] using habs)
    have hrm := cloudRemove_of_not_mem' roomId cl (by simpa [storedRoomIds] using habs)
    cases cF with
    | true => exact ⟨rfl, rfl, rfl⟩
    | false =>
      refine ⟨?_, ?_, ?_⟩ <;>
        simp [addMessage, addMemo, deleteMemo, runTransactionAt, hget,
          addMessageTx, addMemoTx, deleteMemoTx, cloudRemove, hrm]
  | false =>
    have hfind : lr.find? (fun r => r.id = roomId) = none :=
      find?_eq_none_of_not_mem roomId lr (by simpa [storedRoomIds] using habs)
    refine ⟨?_, ?_, ?_⟩ <;> simp [addMessage, addMemo, deleteMemo, hfind]

/-- C2 (amended): in cloud mode every record the subscription delivers has
its messages and memos reshaped into real arrays, and an empty remote rooms
node (null snapshot) delivers the empty collection; in local mode the
callback receives the stored collection verbatim, with no reshaping. -/
theorem subscribe_shapes (s : StoreState) :
    (s.cloudEnabled = true → ∀ r ∈ subscribeSnapshot s,
        r.messages.isArr = true ∧ r.memos.isArr = true)
    ∧ (s.cloudEnabled = true → s.cloud = [] → subscribeSnapshot s = [])
    ∧ (s.cloudEnabled = false → subscribeSnapshot s = s.localRooms) := by
  refine ⟨?_, ?_, ?_⟩
  · intro hc r hr
    simp [subscribeSnapshot, hc] at hr
    rcases hcl : s.cloud with _ | ⟨p, rest⟩ <;> rw [hcl] at hr <;> simp at hr
    rcases hr with rfl | ⟨q, hq, hmem, rfl⟩ <;> simp [sanitizeRoom, RawSeq.isArr]
  · intro hc hcl
    simp [subscribeSnapshot, hc, hcl]
  · intro hc
    simp [subscribeSnapshot, hc]

/-- The crafted import file of the C2 counterexample: a room whose messages
field is a key-indexed object. importRoom accepts it (id and title are
truthy) and the local-mode subscription delivers it unsanitized. -/
def mapShapedImport : RawRoom :=
  { id := "crafted"
    title := "crafted room"
    password := none
    messages := .obj [("0", ⟨"m0", "x", .PARTICIPANT, "hello", 0, "normal"⟩)]
    memos := .arr []
    createdAt := 0
    createdBy := "x" }

/-- C2 counterexample: in local mode, a record imported with key-indexed
messages is delivered by the subscription callback in exactly that
map-indexed shape, so delivered records are not always sequences in either
backend mode. -/
theorem subscribe_shape_counterexample :
    (importRoom ⟨false, false, [], []⟩ (some mapShapedImport)).1 = true
    ∧ mapShapedImport
        ∈ subscribeSnapshot (importRoom ⟨false, false, [], []⟩ (some mapShapedImport)).2
    ∧ mapShapedImport.messages.isArr = false := by
  refine ⟨rfl, ?_, rfl⟩
  simp [importRoom, saveRoom, mapShapedImport, upsertLocal, subscribeSnapshot]

/-- C4 counterexample: it is not the case that every fallible asynchronous
storage call site awaits its callee — importRoom, the local branches of
addMessage/addMemo/deleteMemo, the cloud transaction calls, and the app's
confirm-delete handler all drop the promise. -/
theorem awaited_claim_counterexample :
    ¬ (∀ c ∈ asyncStorageCallSites, c.canFail = true → c.awaited = true) := by
  decide

/-- C4 (amended): a remote write failure in saveRoom and a remote delete
failure in deleteRoom propagate to their caller as a distinguishable error
(the rejection is re-thrown); but the fallible asynchronous storage
operations that are called without await are exactly importRoom's save, the
six mutator branches, and the app's confirm-delete handler — their failures
cannot be caught by the caller. -/
theorem error_propagation_spec (s : StoreState) (room : RawRoom) (roomId : String)
    (hc : s.cloudEnabled = true) (hf : s.cloudFails = true) :
    saveRoom s room = .error "Error saving room to cloud"
    ∧ deleteRoom s roomId = .error "Error deleting room from cloud"
    ∧ (asyncStorageCallSites.filter (fun c => c.canFail && !c.awaited)).map
        AsyncCallSite.caller
      = ["importRoom", "addMessage.cloud", "addMessage.local", "addMemo.cloud",
         "addMemo.local", "deleteMemo.cloud", "deleteMemo.local",
         "App.handleConfirmDelete"] := by
  refine ⟨by simp [saveRoom, hc, hf], by simp [deleteRoom, hc, hf], by decide⟩

/-- C7 (amended): importRoom is total and never throws to its caller; it
returns false with the store untouched when the input is null or its id or
title is falsy; when validation passes it returns true — the store then
contains the record whenever the (unawaited) save succeeds, but a failing
cloud save still yields true with the store unchanged, because the save's
rejection is not observable in the returned flag. -/
theorem importRoom_flag_spec (s : StoreState) (room : RawRoom) :
    importRoom s none = (false, s)
    ∧ (room.id = "" ∨ room.title = "" → importRoom s (some room) = (false, s))
    ∧ (room.id ≠ "" → room.title ≠ "" → (importRoom s (some room)).1 = true)
    ∧ (room.id ≠ "" → room.title ≠ "" → s.cloudEnabled = false ∨ s.cloudFails = false →
        storedRoom (importRoom s (some room)).2 room.id = some room)
    ∧ (room.id ≠ "" → room.title ≠ "" → s.cloudEnabled = true → s.cloudFails = true →
        importRoom s (some room) = (true, s)) := by
  refine ⟨rfl, ?_, ?_, ?_, ?_⟩
  · rintro (h | h) <;> simp [importRoom, h]
  · intro hid htitle
    rcases hsv : saveRoom s room with e | s2 <;> simp [importRoom, hid, htitle, hsv]
  · intro hid htitle hok
    obtain ⟨s2, hsv, hstored⟩ := saveRoom_ok s room hok
    simpa [importRoom, hid, htitle, hsv] using hstored
  · intro hid htitle hc hf
    simp [importRoom, hid, htitle, saveRoom, hc, hf]

/-- The valid room record of the C7 counterexample. -/
def importedRoomSample : RawRoom :=
  { id := "rid7"
    title := "title7"
    password := none
    messages := .arr []
    memos := .arr []
    createdAt := 0
    createdBy := "x" }

/-- C7 counterexample: in cloud mode with the remote write rejecting,
importRoom still returns true while the room was not upserted — the flag is
not true exactly when the room was accepted and upserted. -/
theorem importRoom_claim_counterexample :
    (importRoom ⟨true, true, [], []⟩ (some importedRoomSample)).1 = true
    ∧ storedRoom (importRoom ⟨true, true, [], []⟩ (some importedRoomSample)).2 "rid7"
        = none := by
  refine ⟨rfl, ?_⟩
  simp [importRoom, saveRoom, importedRoomSample, storedRoom, cloudGet]

/-- C8: with a parsed configuration holding truthy apiKey and projectId but
a falsy databaseURL, declining the confirmation dialog makes handleSave
report the actionable missing-databaseURL error and persist nothing; and
whenever the confirmed path does save, the saved databaseURL is exactly the
candidate derived from the project identifier by the fixed naming
convention. -/
theorem credential_decline_spec (c : FirebaseConfig) (connectionOk : Bool)
    (hapi : c.apiKey ≠ "") (hproj : c.projectId ≠ "")
    (hurl : strOptFalsy c.databaseURL = true) :
    handleSave (.object c) false connectionOk
      = .errorShown "'databaseURL'이 없습니다. Firebase Console의 Realtime Database 섹션에서 URL을 확인하고 추가해주세요."
    ∧ persistsCredentials (handleSave (.object c) false connectionOk) = false
    ∧ (∀ c2, handleSave (.object c) true connectionOk = .savedConfig c2 →
        c2.databaseURL = some (inferredUrl c.projectId)) := by
  have h1 : handleSave (.object c) false connectionOk
      = .errorShown "'databaseURL'이 없습니다. Firebase Console의 Realtime Database 섹션에서 URL을 확인하고 추가해주세요." := by
    simp [handleSave, hapi, hproj, hurl]
  refine ⟨h1, by rw [h1]; rfl, ?_⟩
  intro c2 h2
  cases hconn : connectionOk <;> rw [hconn] at h2 <;>
    simp [handleSave, hapi, hproj, hurl] at h2
  rw [← h2]

theorem decodeMessage_encodeMessage (m : Message) :
    decodeMessage (encodeMessage m) = some m := by
  obtain ⟨i, sn, role, t, ts, ty⟩ := m
  cases role <;> rfl

theorem decodeMemo_encodeMemo (m : Memo) :
    decodeMemo (encodeMemo m) = some m := by
  obtain ⟨i, t⟩ := m
  rfl

theorem decodeList_map {α : Type} (dec : Json → Option α) (enc : α → Json)
    (h : ∀ x, dec (enc x) = some x) (xs : List α) :
    decodeList dec (xs.map enc) = some xs := by
  induction xs with
  | nil => rfl
  | cons x xs ih => simp [decodeList, h, ih]

theorem decodeRoom_encodeRoom_arr (i t : String) (password : Option String)
    (ms : List Message) (mos : List Memo) (ca : Nat) (cb : String) :
    decodeRoom (encodeRoom ⟨i, t, password, .arr ms, .arr mos, ca, cb⟩)
      = some ⟨i, t, password, .arr ms, .arr mos, ca, cb⟩ := by
  have h1 : decodeList decodeMessage (ms.map encodeMessage) = some ms :=
    decodeList_map _ _ decodeMessage_encodeMessage ms
  have h2 : decodeList decodeMemo (mos.map encodeMemo) = some mos :=
    decodeList_map _ _ decodeMemo_encodeMemo mos
  cases password <;>
    simp [encodeRoom, decodeRoom, jsonField, optField, encodeSeqWith, decodeSeqWith,
      asStr, asOptStr, asNat, h1, h2]

/-- C6: exporting a room record (JSON.stringify, handleExportRoom) and
importing the exported file (JSON.parse in handleFileChange, then
importRoom) reproduces a stored record with the original identifier, title,
messages, and memos — in fact the whole original record: the parsed file
decodes back to the record, importRoom accepts it, and the active backend
then stores it under the original identifier. Hypotheses: the record is
sequence-shaped (an actual room record per the data model), its id and
title are truthy, and the (unawaited) write goes through. -/
theorem export_import_roundtrip (s : StoreState) (r : RawRoom)
    (ms : List Message) (mos : List Memo)
    (hmsg : r.messages = .arr ms) (hmemo : r.memos = .arr mos)
    (hid : r.id ≠ "") (htitle : r.title ≠ "")
    (hok : s.cloudEnabled = false ∨ s.cloudFails = false) :
    decodeRoom (encodeRoom r) = some r
    ∧ (importRoom s (decodeRoom (encodeRoom r))).1 = true
    ∧ storedRoom (importRoom s (decodeRoom (encodeRoom r))).2 r.id = some r := by
  obtain ⟨i, t, password, messages, memos, ca, cb⟩ := r
  obtain rfl : messages = RawSeq.arr ms := hmsg
  obtain rfl : memos = RawSeq.arr mos := hmemo
  have hdec := decodeRoom_encodeRoom_arr i t password ms mos ca cb
  have hid' : i ≠ "" := hid
  have ht' : t ≠ "" := htitle
  obtain ⟨s2, hsv, hstored⟩ := saveRoom_ok s ⟨i, t, password, .arr ms, .arr mos, ca, cb⟩ hok
  rw [hdec]
  exact ⟨rfl, by simp [importRoom, hid', ht', hsv],
    by simpa [importRoom, hid', ht', hsv] using hstored⟩

/-- C9: getLocalRooms is total over the three storage states the claim
names: an absent entry yields the empty list, an entry JSON.parse rejects
yields the empty list (the catch branch), and an entry holding a serialized
room list yields that list back; in each case the result is a JSON array. -/
theorem getLocalRooms_total :
    getLocalRooms .absent = Json.arr []
    ∧ getLocalRooms .malformed = Json.arr []
    ∧ ∀ rooms : List RawRoom,
        getLocalRooms (.wellFormed (encodeRooms rooms)) = encodeRooms rooms
        ∧ (getLocalRooms (.wellFormed (encodeRooms rooms))).isArr = true := by
  exact ⟨rfl, rfl, fun rooms => ⟨rfl, rfl⟩⟩

/-! ### Concrete sample data for the witness theorems -/

/-- A participant message. -/
def msgA : Message := ⟨"a1", "alice", .PARTICIPANT, "hi", 1, "normal"⟩

/-- A second participant message. -/
def msgB : Message := ⟨"b1", "bob", .PARTICIPANT, "yo", 2, "normal"⟩

/-- A memo. -/
def memoW : Memo := ⟨"mm", "note"⟩

/-- A system message. -/
def msgSys : Message := ⟨"w0", "System", .ADMIN, "2024", 0, "system"⟩

/-- A well-formed room record. -/
def roomW : RawRoom := ⟨"r1", "Room", none, .arr [msgSys], .arr [memoW], 0, "AI Bot"⟩

/-- A record whose id is falsy. -/
def badRoom : RawRoom := ⟨"", "untitled", none, .arr [], .arr [], 0, "x"⟩

/-- A cloud record whose sequences arrive key-indexed. -/
def cloudObjRoom : RawRoom :=
  ⟨"c1", "cloudy", none, .obj [("k0", msgA)], .obj [("k1", memoW)], 0, "x"⟩

/-- A parsed configuration with truthy apiKey and projectId and no
databaseURL. -/
def configW : FirebaseConfig := ⟨"key", "", none, "proj", none, none, "app"⟩

/-! ### Witnesses -/

/-- Witness for C1: createRoom at a concrete state and environment. -/
theorem createRoom_spec_witness :
    ∃ s2,
      createRoom ⟨false, false, [], []⟩ true "uuid-1" "rb" "m1" 5 2024 0 15 "General" none
        = .ok (newRoomRecord true "uuid-1" "rb" "m1" 5 2024 0 15 "General" none, s2)
      ∧ storedRoom s2 (generateUniqueId true "uuid-1" 5 "rb")
          = some (newRoomRecord true "uuid-1" "rb" "m1" 5 2024 0 15 "General" none) := by
  obtain ⟨s2, h1, -, -, -, -, -, h2⟩ :=
    createRoom_spec ⟨false, false, [], []⟩ true "uuid-1" "rb" "m1" 5 2024 0 15 "General" none
      (by decide) (Or.inl rfl)
  exact ⟨s2, h1, h2⟩

/-- Witness for C2 (amended) at concrete states: an empty remote node
delivers the empty collection, a key-indexed cloud record is delivered
sanitized to arrays, and local mode delivers the stored list verbatim. -/
theorem subscribe_shapes_witness :
    subscribeSnapshot (⟨true, false, [], []⟩ : StoreState) = []
    ∧ ((sanitizeRoom cloudObjRoom).messages.isArr = true
        ∧ (sanitizeRoom cloudObjRoom).memos.isArr = true)
    ∧ subscribeSnapshot (⟨false, false, [roomW], []⟩ : StoreState) = [roomW] := by
  refine ⟨?_, ?_, ?_⟩
  · exact (subscribe_shapes ⟨true, false, [], []⟩).2.1 rfl rfl
  · exact (subscribe_shapes ⟨true, false, [], [("c1", cloudObjRoom)]⟩).1 rfl
      (sanitizeRoom cloudObjRoom) (by decide)
  · exact (subscribe_shapes ⟨false, false, [roomW], []⟩).2.2 rfl

/-- Witness for C3: two appends against a concrete cloud room. -/
theorem addMessage_no_lost_update_witness :
    ∃ s1 s2 r2, addMessage ⟨true, false, [], [("r1", roomW)]⟩ "r1" msgA = some s1
      ∧ addMessage s1 "r1" msgB = some s2
      ∧ cloudGet "r1" s2.cloud = some r2
      ∧ r2.messages = .arr (objectValues roomW.messages ++ [msgA, msgB])
      ∧ msgA ∈ objectValues r2.messages ∧ msgB ∈ objectValues r2.messages :=
  (addMessage_no_lost_update ⟨true, false, [], [("r1", roomW)]⟩ "r1" roomW msgA msgB
    rfl rfl rfl).1

/-- Witness for C4 (amended) at a concrete failing cloud state. -/
theorem error_propagation_spec_witness :
    saveRoom ⟨true, true, [], []⟩ roomW = .error "Error saving room to cloud"
    ∧ deleteRoom ⟨true, true, [], []⟩ "r1" = .error "Error deleting room from cloud"
    ∧ (asyncStorageCallSites.filter (fun c => c.canFail && !c.awaited)).map
        AsyncCallSite.caller
      = ["importRoom", "addMessage.cloud", "addMessage.local", "addMemo.cloud",
         "addMemo.local", "deleteMemo.cloud", "deleteMemo.local",
         "App.handleConfirmDelete"] :=
  error_propagation_spec ⟨true, true, [], []⟩ roomW "r1" rfl rfl

/-- Witness for C5: deleting a present and an absent identifier in a
concrete local state. -/
theorem deleteRoom_idempotent_witness :
    (∃ s1, deleteRoom ⟨false, false, [roomW], []⟩ "r1" = .ok s1
      ∧ deleteRoom s1 "r1" = .ok s1)
    ∧ deleteRoom ⟨false, false, [roomW], []⟩ "zzz" = .ok ⟨false, false, [roomW], []⟩ :=
  ⟨(deleteRoom_idempotent ⟨false, false, [roomW], []⟩ "r1" rfl).1,
   (deleteRoom_idempotent ⟨false, false, [roomW], []⟩ "zzz" rfl).2 (by decide)⟩

/-- Witness for C6: exporting and re-importing a concrete room. -/
theorem export_import_roundtrip_witness :
    decodeRoom (encodeRoom roomW) = some roomW
    ∧ (importRoom ⟨false, false, [], []⟩ (decodeRoom (encodeRoom roomW))).1 = true
    ∧ storedRoom (importRoom ⟨false, false, [], []⟩ (decodeRoom (encodeRoom roomW))).2 "r1"
        = some roomW :=
  export_import_roundtrip ⟨false, false, [], []⟩ roomW [msgSys] [memoW] rfl rfl
    (by decide) (by decide) (Or.inl rfl)

/-- Witness for C7 (amended) at concrete inputs covering each branch. -/
theorem importRoom_flag_spec_witness :
    importRoom ⟨false, false, [], []⟩ none = (false, ⟨false, false, [], []⟩)
    ∧ importRoom ⟨false, false, [], []⟩ (some badRoom) = (false, ⟨false, false, [], []⟩)
    ∧ (importRoom ⟨false, false, [], []⟩ (some importedRoomSample)).1 = true
    ∧ storedRoom (importRoom ⟨false, false, [], []⟩ (some importedRoomSample)).2 "rid7"
        = some importedRoomSample
    ∧ importRoom ⟨true, true, [], []⟩ (some importedRoomSample)
        = (true, ⟨true, true, [], []⟩) := by
  refine ⟨(importRoom_flag_spec ⟨false, false, [], []⟩ importedRoomSample).1, ?_, ?_, ?_, ?_⟩
  · exact (importRoom_flag_spec ⟨false, false, [], []⟩ badRoom).2.1 (Or.inl rfl)
  · exact (importRoom_flag_spec ⟨false, false, [], []⟩ importedRoomSample).2.2.1
      (by decide) (by decide)
  · exact (importRoom_flag_spec ⟨false, false, [], []⟩ importedRoomSample).2.2.2.1
      (by decide) (by decide) (Or.inl rfl)
  · exact (importRoom_flag_spec ⟨true, true, [], []⟩ importedRoomSample).2.2.2.2
      (by decide) (by decide) rfl rfl

/-- Witness for C8 at a concrete configuration missing its databaseURL. -/
theorem credential_decline_spec_witness :
    handleSave (.object configW) false true
      = .errorShown "'databaseURL'이 없습니다. Firebase Console의 Realtime Database 섹션에서 URL을 확인하고 추가해주세요."
    ∧ persistsCredentials (handleSave (.object configW) false true) = false := by
  obtain ⟨h1, h2, -⟩ := credential_decline_spec configW true (by decide) (by decide) rfl
  exact ⟨h1, h2⟩

/-- Witness for C10: the three mutators against an absent room id in a
concrete local state. -/
theorem mutators_nonexistent_noop_witness :
    addMessage ⟨false, false, [roomW], []⟩ "nope" msgA = some ⟨false, false, [roomW], []⟩
    ∧ addMemo ⟨false, false, [roomW], []⟩ "nope" memoW = some ⟨false, false, [roomW], []⟩
    ∧ deleteMemo ⟨false, false, [roomW], []⟩ "nope" "mm" = some ⟨false, false, [roomW], []⟩ :=
  mutators_nonexistent_noop ⟨false, false, [roomW], []⟩ "nope" msgA memoW "mm" (by decide)

end Studio2
